import Mathlib

/-!
Verification of the receive/forward media path of the pion_webrtc simulcast
fork.  The definitions below are a shallow embedding of the Go source:

* `RTPReceiver.receive`, `RTPReceiver.stop` embed `RTPReceiver.Receive` and
  `RTPReceiver.Stop` from the receiver implementation (rtpreceiver.go);
* `forwardStep` / `forwardStepSingle` embed the rewrite-and-write body of the
  per-layer forward loops of the simulcast example (main.go:124-128) and the
  single-stream example (part_000:125-129);
* `readCheckSimulcast` / `readCheckSingle` embed the read-and-error-check head
  of those loops;
* `feedbackTickSimulcast` / `feedbackTickSingle` embed one tick of the
  periodic RTCP feedback goroutine of each example.

External collaborators (the pion/srtp secure transport and the pion/rtcp
packet types) appear only through their interface: a session is a function
from an SSRC to either a read stream or a transport error, and closing a
stream yields the deterministic result recorded in the stream value.
Concurrency is serialized: `Receive` and `Stop` hold the receiver mutex for
their whole body in the source, so they are modelled as sequential state
transformers; the one-shot channels `received` and `closed` become Bool
fields that are latched by the operations that `close` them.
-/

/-- Media kind of a codec or receiver (`webrtc.RTPCodecType`). -/
inductive RTPCodecType where
  | audio
  | video
  deriving DecidableEq, Repr

/-- One encoding descriptor handed to `Receive`
(`RTPDecodingParameters`: an SSRC plus an optional layer id `RID`). -/
structure RTPCodingParameters where
  RID : String
  SSRC : Nat
  deriving DecidableEq, Repr

/-- One simulcast layer of a track (`webrtc.TrackRTPStream`).  The back
reference to the owning track carried by the Go struct is omitted
(it is circular and no claim mentions it). -/
structure TrackRTPStream where
  id : String
  rid : String
  ssrc : Nat
  ready : Bool
  deriving DecidableEq, Repr

/-- A negotiated media track (`webrtc.Track`), as built by `Receive`.
`streams` models the Go slice `[]*TrackRTPStream`: `make` fills it with nil
pointers, hence `Option`; an entry is `none` exactly while the pointer is
nil.  The receiver back reference is omitted as circular. -/
structure Track where
  kind : RTPCodecType
  streams : List (Option TrackRTPStream)
  multiStream : Bool
  deriving DecidableEq, Repr

/-- A secure RTP read stream (`srtp.ReadStreamSRTP`).  `closeErr` records the
result its external `Close()` reports: `none` for success. -/
structure ReadStreamSRTP where
  ssrc : Nat
  closeErr : Option String
  deriving DecidableEq, Repr

/-- A secure RTCP read stream (`srtp.ReadStreamSRTCP`). -/
structure ReadStreamSRTCP where
  ssrc : Nat
  closeErr : Option String
  deriving DecidableEq, Repr

/-- The SRTP half of the secure session: `OpenReadStream` keyed by SSRC. -/
structure SessionSRTP where
  openReadStream : Nat → Except String ReadStreamSRTP

/-- The SRTCP half of the secure session. -/
structure SessionSRTCP where
  openReadStream : Nat → Except String ReadStreamSRTCP

/-- The secure transport (`webrtc.DTLSTransport`) as `Receive` consumes it:
each getter either yields the session or fails with a transport error. -/
structure DTLSTransport where
  getSRTPSession : Except String SessionSRTP
  getSRTCPSession : Except String SessionSRTCP

/-- State of a `webrtc.RTPReceiver`.  The one-shot channels `received` and
`closed` are modelled by Bools that start `false` and are set `true` by the
`close(...)` calls of the source. -/
structure RTPReceiver where
  kind : RTPCodecType
  transport : DTLSTransport
  track : Option Track
  closed : Bool
  received : Bool
  rtpReadStream : Option ReadStreamSRTP
  rtcpReadStream : Option ReadStreamSRTCP

/-- `API.NewRTPReceiver` with a non-nil transport: fresh channels, no track,
no open streams. -/
def newRTPReceiver (kind : RTPCodecType) (transport : DTLSTransport) : RTPReceiver :=
  { kind := kind
    transport := transport
    track := none
    closed := false
    received := false
    rtpReadStream := none
    rtcpReadStream := none }

/-- Errors `Receive` returns, named after the spec taxonomy; the source uses
`fmt.Errorf("no encodings provided")` and
`fmt.Errorf("Receive has already been called")` for the first two. -/
inductive ReceiveError where
  | invalidArgument
  | alreadyReceiving
  | transportError (msg : String)
  deriving DecidableEq, Repr

/-- Body of `Receive` after the two guards (rtpreceiver.go:233-278).  The
caller `RTPReceiver.receive` applies the deferred `close(r.received)` to
whatever state this returns, mirroring `defer close(r.received)` being
registered before any of this code runs.  Faithful details: the track is
assigned before the streams are opened, so it survives a transport failure;
the encoding loop of the source executes only its first iteration (`break`
with comment "only one ssrc is supported"), so only `streams[0]` is
populated and later entries stay nil; both read streams are opened with
`Encodings[0].SSRC`; `streams[0].ready` is set only after both opens
succeed. -/
def RTPReceiver.receiveBody (r : RTPReceiver) (encodings : List RTPCodingParameters)
    (enc0 : RTPCodingParameters) : RTPReceiver × Option ReceiveError :=
  let stream0 : TrackRTPStream :=
    { id := toString enc0.SSRC, rid := enc0.RID, ssrc := enc0.SSRC, ready := false }
  let track : Track :=
    { kind := r.kind
      streams := (List.replicate encodings.length (none : Option TrackRTPStream)).set 0
        (some stream0)
      multiStream := decide (encodings.length > 1) }
  let r1 : RTPReceiver := { r with track := some track }
  match r.transport.getSRTPSession with
  | Except.error e => (r1, some (ReceiveError.transportError e))
  | Except.ok srtpSession =>
    match srtpSession.openReadStream enc0.SSRC with
    | Except.error e => ({ r1 with rtpReadStream := none }, some (ReceiveError.transportError e))
    | Except.ok rtpStream =>
      let r2 : RTPReceiver := { r1 with rtpReadStream := some rtpStream }
      match r.transport.getSRTCPSession with
      | Except.error e => (r2, some (ReceiveError.transportError e))
      | Except.ok srtcpSession =>
        match srtcpSession.openReadStream enc0.SSRC with
        | Except.error e =>
          ({ r2 with rtcpReadStream := none }, some (ReceiveError.transportError e))
        | Except.ok rtcpStream =>
          let track2 : Track :=
            { track with streams := track.streams.set 0 (some { stream0 with ready := true }) }
          ({ r2 with rtcpReadStream := some rtcpStream, track := some track2 }, none)

/-- `RTPReceiver.Receive` (rtpreceiver.go:219-279).  Guard order as in the
source: empty encoding list first, then the latched `received` channel; only
past both guards is `close(r.received)` deferred, so every later return path
(success or transport error) latches the signal. -/
def RTPReceiver.receive (r : RTPReceiver) (encodings : List RTPCodingParameters) :
    RTPReceiver × Option ReceiveError :=
  match encodings with
  | [] => (r, some ReceiveError.invalidArgument)
  | enc0 :: _ =>
    if r.received then (r, some ReceiveError.alreadyReceiving)
    else
      let pr := r.receiveBody encodings enc0
      ({ pr.1 with received := true }, pr.2)

/-- A stream-close attempt made by `Stop`, for observing side effects. -/
inductive CloseAttempt where
  | rtcp
  | rtp
  deriving DecidableEq, Repr

/-- `RTPReceiver.Stop` (rtpreceiver.go:308-335).  Returns the new state, the
error returned to the caller, and the list of `Close()` attempts made, in
order.  Faithful details: a latched `closed` channel short-circuits to
success with no close attempted; only when `received` is latched are the
streams closed, RTCP first; the first close error returns immediately,
leaving `closed` unlatched; `close(r.closed)` runs only when the body
reaches its end. -/
def RTPReceiver.stop (r : RTPReceiver) : RTPReceiver × Option String × List CloseAttempt :=
  if r.closed then (r, none, [])
  else if r.received then
    match r.rtcpReadStream with
    | some rtcpS =>
      match rtcpS.closeErr with
      | some e => (r, some e, [CloseAttempt.rtcp])
      | none =>
        match r.rtpReadStream with
        | some rtpS =>
          match rtpS.closeErr with
          | some e => (r, some e, [CloseAttempt.rtcp, CloseAttempt.rtp])
          | none => ({ r with closed := true }, none, [CloseAttempt.rtcp, CloseAttempt.rtp])
        | none => ({ r with closed := true }, none, [CloseAttempt.rtcp])
    | none =>
      match r.rtpReadStream with
      | some rtpS =>
        match rtpS.closeErr with
        | some e => (r, some e, [CloseAttempt.rtp])
        | none => ({ r with closed := true }, none, [CloseAttempt.rtp])
      | none => ({ r with closed := true }, none, [])
  else ({ r with closed := true }, none, [])

/-- An RTP packet as the forward loops see it (`rtp.Packet`): the SSRC header
field that gets rewritten, plus the fields the loops leave untouched. -/
structure RTPPacket where
  ssrc : Nat
  sequenceNumber : Nat
  timestamp : Nat
  payload : List Nat
  deriving DecidableEq, Repr

/-- Result of `Track.WriteRTP` on an outbound track: `none` on success,
`errClosedPipe` for `io.ErrClosedPipe`, `other` for any other error. -/
inductive WriteError where
  | errClosedPipe
  | other (msg : String)
  deriving DecidableEq, Repr

/-- An outbound `webrtc.Track` as the forward loops use it: its own SSRC
(`Track.SSRC()`) and the behaviour of `WriteRTP` on a given packet. -/
structure OutboundTrack where
  ssrc : Nat
  writeResult : RTPPacket → Option WriteError

/-- Outcome of one pass through the rewrite-and-write statements: the packet
handed to `WriteRTP` (after the SSRC rewrite) and, when the write error is
neither nil nor `io.ErrClosedPipe`, the error the loop panics with. -/
structure ForwardResult where
  written : RTPPacket
  panicErr : Option WriteError
  deriving DecidableEq, Repr

/-- The rewrite-and-write body of the simulcast forward loop
(main.go:124-128):
`packet.SSRC = outputTracks[rid].SSRC()` then
`if writeErr := outputTracks[rid].WriteRTP(packet); writeErr != nil && writeErr != io.ErrClosedPipe { panic(writeErr) }`.
A missing map entry gives a nil `*webrtc.Track`, on which `SSRC()` faults:
modelled as `none`. -/
def forwardStep (outputTracks : String → Option OutboundTrack) (rid : String)
    (packet : RTPPacket) : Option ForwardResult :=
  match outputTracks rid with
  | none => none
  | some t =>
    match t.writeResult { packet with ssrc := t.ssrc } with
    | none => some { written := { packet with ssrc := t.ssrc }, panicErr := none }
    | some WriteError.errClosedPipe =>
        some { written := { packet with ssrc := t.ssrc }, panicErr := none }
    | some (WriteError.other m) =>
        some { written := { packet with ssrc := t.ssrc }, panicErr := some (WriteError.other m) }

/-- The same rewrite-and-write body as it appears in the single-stream
example (part_000:125-129); textually identical up to the name of the error
variable. -/
def forwardStepSingle (outputTracks : String → Option OutboundTrack) (rid : String)
    (packet : RTPPacket) : Option ForwardResult :=
  match outputTracks rid with
  | none => none
  | some t =>
    match t.writeResult { packet with ssrc := t.ssrc } with
    | none => some { written := { packet with ssrc := t.ssrc }, panicErr := none }
    | some WriteError.errClosedPipe =>
        some { written := { packet with ssrc := t.ssrc }, panicErr := none }
    | some (WriteError.other m) =>
        some { written := { packet with ssrc := t.ssrc }, panicErr := some (WriteError.other m) }

/-- What the head of a read loop does with one `ReadRTP` result: either the
loop panics (with the value passed to `panic`) or it falls through into the
rewrite-and-write statements carrying the returned packet pointer. -/
inductive ReadLoopAction where
  | panicked (e : Option String)
  | proceeds (p : Option RTPPacket)
  deriving DecidableEq, Repr

/-- Head of the simulcast forward loop (main.go:116-122):
`var readErr error; packet, readErr := inStream.ReadRTP(); if err != nil { panic(readErr) }`.
`err` is the enclosing function's error variable captured by the closure,
NOT `readErr`; `readRTP` is the `(packet, readErr)` pair `ReadRTP` returned,
with `none` standing for a nil pointer or nil error. -/
def readCheckSimulcast (err : Option String) (readRTP : Option RTPPacket × Option String) :
    ReadLoopAction :=
  match err with
  | some _ => ReadLoopAction.panicked readRTP.2
  | none => ReadLoopAction.proceeds readRTP.1

/-- Head of the single-stream forward loop (part_000:118-123):
`packet, err := inStream.ReadRTP(); if err != nil { panic(err) }` — here the
variable tested IS the one `ReadRTP` assigned. -/
def readCheckSingle (readRTP : Option RTPPacket × Option String) : ReadLoopAction :=
  match readRTP.2 with
  | some e => ReadLoopAction.panicked (some e)
  | none => ReadLoopAction.proceeds readRTP.1

/-- Value of the enclosing `main`'s `err` variable by the time the `OnTrack`
goroutines run: every assignment to `err` in `main` is followed by
`if err != nil { panic(err) }`, so once negotiation finished without
panicking the captured variable holds nil. -/
def mainOuterErrAtOnTrack : Option String := none

/-- An RTCP feedback message as the ticker goroutines build them. -/
inductive RTCPPacket where
  | pictureLossIndication (mediaSSRC : Nat)
  | receiverEstimatedMaximumBitrate (senderSSRC : Nat) (bitrate : Nat)
  deriving DecidableEq, Repr

/-- The SSRC a feedback message is addressed to: `MediaSSRC` for a PLI,
`SenderSSRC` for a REMB — both set from `inStream.SSRC()` in the source. -/
def RTCPPacket.addressedSSRC : RTCPPacket → Nat
  | RTCPPacket.pictureLossIndication s => s
  | RTCPPacket.receiverEstimatedMaximumBitrate s _ => s

/-- One tick of the simulcast example's feedback goroutine (main.go:103-114):
`WriteRTCP([PictureLossIndication{MediaSSRC: ssrc}])` then
`WriteRTCP([ReceiverEstimatedMaximumBitrate{Bitrate: 10000000, SenderSSRC: ssrc}])`,
listed in the order the write calls are issued.  A failed write is only
logged, so the sequence of attempts is the same regardless of failures. -/
def feedbackTickSimulcast (ssrc : Nat) : List RTCPPacket :=
  [RTCPPacket.pictureLossIndication ssrc,
   RTCPPacket.receiverEstimatedMaximumBitrate ssrc 10000000]

/-- One tick of the single-stream example's feedback goroutine
(part_000:107-115): same two writes in the same order (only the tick period
differs, 1s instead of 3s). -/
def feedbackTickSingle (ssrc : Nat) : List RTCPPacket :=
  [RTCPPacket.pictureLossIndication ssrc,
   RTCPPacket.receiverEstimatedMaximumBitrate ssrc 10000000]

/-- A transport whose sessions open every requested stream successfully and
whose streams close without error. -/
def okTransport : DTLSTransport :=
  { getSRTPSession := Except.ok { openReadStream := fun s => Except.ok { ssrc := s, closeErr := none } }
    getSRTCPSession := Except.ok { openReadStream := fun s => Except.ok { ssrc := s, closeErr := none } } }

/-- A transport that has not started: both session getters fail. -/
def failTransport : DTLSTransport :=
  { getSRTPSession := Except.error "the DTLS transport has not started yet"
    getSRTCPSession := Except.error "the DTLS transport has not started yet" }

/-- The three simulcast encodings of the reference scenario: identifiers
q, h, f with distinct SSRCs. -/
def threeEncodings : List RTPCodingParameters :=
  [{ RID := "q", SSRC := 111 }, { RID := "h", SSRC := 222 }, { RID := "f", SSRC := 333 }]

/-- An inbound packet of the q layer, carrying the inbound SSRC 111. -/
def demoPacket : RTPPacket :=
  { ssrc := 111, sequenceNumber := 7, timestamp := 90000, payload := [1, 2, 3] }

/-- Outbound track whose writes succeed. -/
def demoOut : OutboundTrack := { ssrc := 222, writeResult := fun _ => none }

/-- Outbound track whose writes fail with `io.ErrClosedPipe`. -/
def closedPipeOut : OutboundTrack :=
  { ssrc := 222, writeResult := fun _ => some WriteError.errClosedPipe }

/-- Outbound track whose writes fail with an error other than
`io.ErrClosedPipe`. -/
def failOut : OutboundTrack :=
  { ssrc := 222, writeResult := fun _ => some (WriteError.other "write buffer full") }

/-- Identifier mapping binding layer q to `demoOut`. -/
def demoTracks : String → Option OutboundTrack :=
  fun rid => if rid = "q" then some demoOut else none

/-- Identifier mapping binding layer q to `closedPipeOut`. -/
def closedPipeTracks : String → Option OutboundTrack :=
  fun rid => if rid = "q" then some closedPipeOut else none

/-- Identifier mapping binding layer q to `failOut`. -/
def failTracks : String → Option OutboundTrack :=
  fun rid => if rid = "q" then some failOut else none

/-- A receiver past a successful `Receive` whose RTCP read stream refuses to
close, as used to exercise the error path of `Stop`. -/
def stopFailReceiver : RTPReceiver :=
  { kind := RTPCodecType.video
    transport := okTransport
    track := none
    closed := false
    received := true
    rtpReadStream := some { ssrc := 111, closeErr := none }
    rtcpReadStream := some { ssrc := 111, closeErr := some "rtcp stream close failed" } }

/-! ## Helper lemmas -/

/-- The received latch after any `receive` call: latched afterwards iff it
was latched before or the encoding list was non-empty (the deferred
`close(r.received)` runs on every path past the two guards). -/
theorem receive_received_eq (r : RTPReceiver) (encodings : List RTPCodingParameters) :
    (r.receive encodings).1.received = (r.received || !encodings.isEmpty) := by
  cases encodings with
  | nil => simp [RTPReceiver.receive]
  | cons e es =>
    by_cases h : r.received
    · simp [RTPReceiver.receive, h]
    · simp [RTPReceiver.receive, h]

/-- Reduction of `forwardStep` once the identifier lookup is known. -/
theorem forwardStep_some (outputTracks : String → Option OutboundTrack) (rid : String)
    (p : RTPPacket) (t : OutboundTrack) (h : outputTracks rid = some t) :
    forwardStep outputTracks rid p =
      match t.writeResult { p with ssrc := t.ssrc } with
      | none => some { written := { p with ssrc := t.ssrc }, panicErr := none }
      | some WriteError.errClosedPipe =>
          some { written := { p with ssrc := t.ssrc }, panicErr := none }
      | some (WriteError.other m) =>
          some { written := { p with ssrc := t.ssrc }, panicErr := some (WriteError.other m) } := by
  unfold forwardStep
  rw [h]

/-- Reduction of `forwardStepSingle` once the identifier lookup is known. -/
theorem forwardStepSingle_some (outputTracks : String → Option OutboundTrack) (rid : String)
    (p : RTPPacket) (t : OutboundTrack) (h : outputTracks rid = some t) :
    forwardStepSingle outputTracks rid p =
      match t.writeResult { p with ssrc := t.ssrc } with
      | none => some { written := { p with ssrc := t.ssrc }, panicErr := none }
      | some WriteError.errClosedPipe =>
          some { written := { p with ssrc := t.ssrc }, panicErr := none }
      | some (WriteError.other m) =>
          some { written := { p with ssrc := t.ssrc }, panicErr := some (WriteError.other m) } := by
  unfold forwardStepSingle
  rw [h]

/-- A receiver whose `closed` channel is latched: `Stop` is an immediate
success with no close attempt. -/
theorem stop_of_closed (r : RTPReceiver) (h : r.closed = true) :
    r.stop = (r, none, []) := by
  simp [RTPReceiver.stop, h]

/-- When `Stop` succeeds, the resulting state has the `closed` channel
latched. -/
theorem stop_success_closed (r : RTPReceiver) (h : (r.stop).2.1 = none) :
    (r.stop).1.closed = true := by
  cases hc : r.closed with
  | true => simp [RTPReceiver.stop, hc]
  | false =>
    cases hr : r.received with
    | false => simp [RTPReceiver.stop, hc, hr]
    | true =>
      cases hs : r.rtcpReadStream with
      | none =>
        cases ht : r.rtpReadStream with
        | none => simp [RTPReceiver.stop, hc, hr, hs, ht]
        | some s =>
          cases he : s.closeErr with
          | none => simp [RTPReceiver.stop, hc, hr, hs, ht, he]
          | some e => simp [RTPReceiver.stop, hc, hr, hs, ht, he] at h
      | some s =>
        cases he : s.closeErr with
        | some e => simp [RTPReceiver.stop, hc, hr, hs, he] at h
        | none =>
          cases ht : r.rtpReadStream with
          | none => simp [RTPReceiver.stop, hc, hr, hs, he, ht]
          | some s2 =>
            cases he2 : s2.closeErr with
            | none => simp [RTPReceiver.stop, hc, hr, hs, he, ht, he2]
            | some e2 => simp [RTPReceiver.stop, hc, hr, hs, he, ht, he2] at h


/-! ## Claim theorems -/

/-- Claim C1: for every input packet and every layer identifier mapped to an
OutboundTrack, the packet handed to that track's `WriteRTP` carries the
OutboundTrack's own SSRC in its SSRC field — never the inbound stream's
original SSRC (whenever the two differ) — in both the simulcast and the
single-stream forward loops. -/
theorem forwardStep_rewrites_ssrc (outputTracks : String → Option OutboundTrack)
    (rid : String) (p : RTPPacket) (t : OutboundTrack) (h : outputTracks rid = some t) :
    (∃ res, forwardStep outputTracks rid p = some res ∧ res.written.ssrc = t.ssrc ∧
      (p.ssrc ≠ t.ssrc → res.written.ssrc ≠ p.ssrc)) ∧
    (∃ res, forwardStepSingle outputTracks rid p = some res ∧ res.written.ssrc = t.ssrc ∧
      (p.ssrc ≠ t.ssrc → res.written.ssrc ≠ p.ssrc)) := by
  constructor
  · rw [forwardStep_some outputTracks rid p t h]
    cases hw : t.writeResult { p with ssrc := t.ssrc } with
    | none => exact ⟨_, rfl, rfl, fun hne heq => hne heq.symm⟩
    | some we =>
      cases we with
      | errClosedPipe => exact ⟨_, rfl, rfl, fun hne heq => hne heq.symm⟩
      | other m => exact ⟨_, rfl, rfl, fun hne heq => hne heq.symm⟩
  · rw [forwardStepSingle_some outputTracks rid p t h]
    cases hw : t.writeResult { p with ssrc := t.ssrc } with
    | none => exact ⟨_, rfl, rfl, fun hne heq => hne heq.symm⟩
    | some we =>
      cases we with
      | errClosedPipe => exact ⟨_, rfl, rfl, fun hne heq => hne heq.symm⟩
      | other m => exact ⟨_, rfl, rfl, fun hne heq => hne heq.symm⟩

/-- Claim C1 witness: mapping q to an outbound track with SSRC 222, a packet
arriving with inbound SSRC 111 is written with SSRC 222. -/
theorem forwardStep_rewrites_ssrc_witness :
    (∃ res, forwardStep demoTracks "q" demoPacket = some res ∧
      res.written.ssrc = demoOut.ssrc ∧
      (demoPacket.ssrc ≠ demoOut.ssrc → res.written.ssrc ≠ demoPacket.ssrc)) ∧
    (∃ res, forwardStepSingle demoTracks "q" demoPacket = some res ∧
      res.written.ssrc = demoOut.ssrc ∧
      (demoPacket.ssrc ≠ demoOut.ssrc → res.written.ssrc ≠ demoPacket.ssrc)) :=
  forwardStep_rewrites_ssrc demoTracks "q" demoPacket demoOut rfl

/-- Claim C5: a `WriteRTP` failure equal to `io.ErrClosedPipe` is swallowed
(the step returns with no panic, so the loop continues), while any other
write error makes the loop panic with that error; in both the simulcast and
the single-stream forward loops. -/
theorem forwardStep_closedPipe_swallowed (outputTracks : String → Option OutboundTrack)
    (rid : String) (p : RTPPacket) (t : OutboundTrack) (h : outputTracks rid = some t) :
    (t.writeResult { p with ssrc := t.ssrc } = some WriteError.errClosedPipe →
      forwardStep outputTracks rid p =
          some { written := { p with ssrc := t.ssrc }, panicErr := none } ∧
      forwardStepSingle outputTracks rid p =
          some { written := { p with ssrc := t.ssrc }, panicErr := none }) ∧
    (∀ m, t.writeResult { p with ssrc := t.ssrc } = some (WriteError.other m) →
      forwardStep outputTracks rid p =
          some { written := { p with ssrc := t.ssrc }, panicErr := some (WriteError.other m) } ∧
      forwardStepSingle outputTracks rid p =
          some { written := { p with ssrc := t.ssrc }, panicErr := some (WriteError.other m) }) := by
  constructor
  · intro hw
    rw [forwardStep_some outputTracks rid p t h, forwardStepSingle_some outputTracks rid p t h, hw]
    exact ⟨rfl, rfl⟩
  · intro m hw
    rw [forwardStep_some outputTracks rid p t h, forwardStepSingle_some outputTracks rid p t h, hw]
    exact ⟨rfl, rfl⟩

/-- Claim C5 witness: with the q layer mapped, a closed-pipe write is
swallowed (no panic) while a "write buffer full" error panics. -/
theorem forwardStep_closedPipe_swallowed_witness :
    forwardStep closedPipeTracks "q" demoPacket =
        some { written := { demoPacket with ssrc := closedPipeOut.ssrc }, panicErr := none } ∧
    forwardStep failTracks "q" demoPacket =
        some { written := { demoPacket with ssrc := failOut.ssrc },
               panicErr := some (WriteError.other "write buffer full") } :=
  ⟨((forwardStep_closedPipe_swallowed closedPipeTracks "q" demoPacket closedPipeOut rfl).1
      rfl).1,
   ((forwardStep_closedPipe_swallowed failTracks "q" demoPacket failOut rfl).2
      "write buffer full" rfl).1⟩

/-- Claim C2 (refuting evaluation): on a fresh receiver with a working
transport, `Receive` with the three encodings q, h, f succeeds, yet the
resulting track holds the q layer only — positions 1 and 2 of the layer
sequence are nil, so the identifiers h and f appear nowhere (the source's
encoding loop breaks after its first iteration). -/
theorem receive_simulcast_drops_later_rids :
    ((newRTPReceiver RTPCodecType.video okTransport).receive threeEncodings).2 = none ∧
    ((newRTPReceiver RTPCodecType.video okTransport).receive threeEncodings).1.track =
      some { kind := RTPCodecType.video
             streams := [some { id := "111", rid := "q", ssrc := 111, ready := true },
                         none, none]
             multiStream := true } :=
  ⟨rfl, rfl⟩

/-- Claim C3 counterexample: a fresh receiver whose transport fails to
deliver the SRTP session.  `Receive` with a non-empty encoding list returns
the transport error, yet the received latch IS signaled afterwards — the
deferred `close(r.received)` runs on the error path too. -/
theorem receive_transport_error_latches :
    ((newRTPReceiver RTPCodecType.video failTransport).receive threeEncodings).2 =
        some (ReceiveError.transportError "the DTLS transport has not started yet") ∧
    ((newRTPReceiver RTPCodecType.video failTransport).receive threeEncodings).1.received
        = true :=
  ⟨rfl, rfl⟩

/-- Claim C3 (amended): `Receive` latches the one-shot received signal
exactly when it passes the empty-list and already-received guards — on
success and equally on a transport failure while opening the RTP or control
read stream.  Only a call rejected with InvalidArgument (empty list) or
AlreadyReceiving leaves the latch as it was: afterwards the latch is
signaled iff it already was or the encoding list was non-empty. -/
theorem receive_latch_eq (r : RTPReceiver) (encodings : List RTPCodingParameters) :
    (r.receive encodings).1.received = (r.received || !encodings.isEmpty) :=
  receive_received_eq r encodings

/-- Claim C4: for every receiver and all non-empty encoding lists, any
`Receive` call made after an earlier `Receive` call has completed fails with
AlreadyReceiving and leaves the state unchanged — so Receive succeeds at
most once and a second successful call is impossible. -/
theorem receive_second_call_rejected (r : RTPReceiver)
    (e1 e2 : List RTPCodingParameters) (h1 : e1 ≠ []) (h2 : e2 ≠ []) :
    ((r.receive e1).1).receive e2 = ((r.receive e1).1, some ReceiveError.alreadyReceiving) := by
  have hrec : (r.receive e1).1.received = true := by
    rw [receive_received_eq]
    cases e1 with
    | nil => exact absurd rfl h1
    | cons a as => simp
  obtain ⟨b, bs, rfl⟩ : ∃ b bs, e2 = b :: bs := by
    cases e2 with
    | nil => exact absurd rfl h2
    | cons b bs => exact ⟨b, bs, rfl⟩
  obtain ⟨r1, hr1⟩ : ∃ r1, (r.receive e1).1 = r1 := ⟨_, rfl⟩
  rw [hr1] at hrec ⊢
  simp [RTPReceiver.receive, hrec]

/-- Claim C4 witness: after a successful three-encoding `Receive`, calling
`Receive` again with the same list is rejected with AlreadyReceiving. -/
theorem receive_second_call_rejected_witness :
    (((newRTPReceiver RTPCodecType.video okTransport).receive threeEncodings).1).receive
        threeEncodings =
      (((newRTPReceiver RTPCodecType.video okTransport).receive threeEncodings).1,
       some ReceiveError.alreadyReceiving) :=
  receive_second_call_rejected (newRTPReceiver RTPCodecType.video okTransport)
    threeEncodings threeEncodings (List.cons_ne_nil _ _) (List.cons_ne_nil _ _)

/-- Claim C6: `Receive` with an empty encoding list fails with
InvalidArgument and returns the receiver completely unchanged — no track
built, no stream opened, neither latch touched. -/
theorem receive_empty_invalidArgument (r : RTPReceiver) :
    r.receive [] = (r, some ReceiveError.invalidArgument) :=
  rfl

/-- Claim C7 (refuting evaluation): in the simulcast forward loop the error
check after `ReadRTP` tests the enclosing function's stale `err` variable
(nil once negotiation succeeded), not `readErr` — so a failed read does NOT
take the fatal branch and the loop proceeds into the rewrite/write
statements with the nil packet of the failed read.  The single-stream loop
tests the right variable and panics as the claim states. -/
theorem simulcast_read_error_not_fatal :
    readCheckSimulcast mainOuterErrAtOnTrack (none, some "srtp: stream read failed") =
        ReadLoopAction.proceeds none ∧
    readCheckSingle (none, some "srtp: stream read failed") =
        ReadLoopAction.panicked (some "srtp: stream read failed") :=
  ⟨rfl, rfl⟩

/-- Claim C8: Stop is idempotent — once a Stop call has returned success,
calling Stop again returns success, changes nothing, and attempts no stream
close. -/
theorem stop_idempotent (r : RTPReceiver) (h : (r.stop).2.1 = none) :
    ((r.stop).1).stop = ((r.stop).1, none, []) :=
  stop_of_closed _ (stop_success_closed r h)

/-- Claim C8 witness: a fresh receiver stops successfully; the second Stop
is a success no-op with no close attempt. -/
theorem stop_idempotent_witness :
    (((newRTPReceiver RTPCodecType.video okTransport).stop).1).stop =
      (((newRTPReceiver RTPCodecType.video okTransport).stop).1, none, []) :=
  stop_idempotent (newRTPReceiver RTPCodecType.video okTransport) rfl

/-- Claim C10: when the first Stop call returns a close error, the receiver
does NOT enter the terminal closed state: the state is unchanged (in
particular `closed` is still false), so a subsequent Stop call repeats the
whole attempt — same close attempts, non-empty — rather than being an
immediate success no-op. -/
theorem stop_error_reattempts (r : RTPReceiver) (e : String) (h : (r.stop).2.1 = some e) :
    (r.stop).1 = r ∧ r.closed = false ∧ ((r.stop).1).stop = r.stop ∧ (r.stop).2.2 ≠ [] := by
  have key : (r.stop).1 = r ∧ r.closed = false ∧ (r.stop).2.2 ≠ [] := by
    cases hc : r.closed with
    | true => simp [RTPReceiver.stop, hc] at h
    | false =>
      cases hr : r.received with
      | false => simp [RTPReceiver.stop, hc, hr] at h
      | true =>
        cases hs : r.rtcpReadStream with
        | some s =>
          cases he : s.closeErr with
          | some e2 => simp [RTPReceiver.stop, hc, hr, hs, he]
          | none =>
            cases ht : r.rtpReadStream with
            | some s2 =>
              cases he2 : s2.closeErr with
              | some e3 => simp [RTPReceiver.stop, hc, hr, hs, he, ht, he2]
              | none => simp [RTPReceiver.stop, hc, hr, hs, he, ht, he2] at h
            | none => simp [RTPReceiver.stop, hc, hr, hs, he, ht] at h
        | none =>
          cases ht : r.rtpReadStream with
          | some s2 =>
            cases he2 : s2.closeErr with
            | some e3 => simp [RTPReceiver.stop, hc, hr, hs, ht, he2]
            | none => simp [RTPReceiver.stop, hc, hr, hs, ht, he2] at h
          | none => simp [RTPReceiver.stop, hc, hr, hs, ht] at h
  exact ⟨key.1, key.2.1, by rw [key.1], key.2.2⟩

/-- Claim C10 witness: a received receiver whose RTCP stream refuses to
close — the failed Stop leaves the state unchanged and a second Stop
re-attempts the close. -/
theorem stop_error_reattempts_witness :
    (stopFailReceiver.stop).1 = stopFailReceiver ∧
    stopFailReceiver.closed = false ∧
    ((stopFailReceiver.stop).1).stop = stopFailReceiver.stop ∧
    (stopFailReceiver.stop).2.2 ≠ [] :=
  stop_error_reattempts stopFailReceiver "rtcp stream close failed" rfl

/-- Claim C9: within one tick of either example's feedback goroutine, the
messages written are exactly the keyframe request (PLI) followed by the
bandwidth estimate (REMB) — the PLI strictly first — and both are addressed
to the layer's SSRC. -/
theorem feedbackTick_order (ssrc : Nat) :
    feedbackTickSimulcast ssrc =
        [RTCPPacket.pictureLossIndication ssrc,
         RTCPPacket.receiverEstimatedMaximumBitrate ssrc 10000000] ∧
    feedbackTickSingle ssrc =
        [RTCPPacket.pictureLossIndication ssrc,
         RTCPPacket.receiverEstimatedMaximumBitrate ssrc 10000000] ∧
    (feedbackTickSimulcast ssrc).map RTCPPacket.addressedSSRC = [ssrc, ssrc] ∧
    (feedbackTickSingle ssrc).map RTCPPacket.addressedSSRC = [ssrc, ssrc] :=
  ⟨rfl, rfl, rfl, rfl⟩
